import Mathlib

/-!
Shallow embedding of `dspy_code_gen.py`: a code-generation pipeline that
synthesizes a code signature, a candidate implementation and three unit tests
from a task string, executes them, and routes failures through a repair module
until every test passes.

External collaborators (the LLM-backed stage modules and the `exec` sandbox)
are abstracted as function-valued parameters; the orchestration logic of
`CodeGenerationPipeline` is translated directly.  The possibly nonterminating
recursion of `_run_code_and_tests` is made total with a fuel parameter; fuel
exhaustion is reported as the distinguished outcome `RunResult.outOfFuel`,
which does not exist in the source (the source simply keeps recursing).
Every observable action of a run is recorded in an event trace.
-/

/-- Output record of `UnitTestGenerator.forward`: the three generated test
sources `test_1`, `test_2`, `edge_case_test_1`. -/
structure TestResult where
  test_1 : String
  test_2 : String
  edge_case_test_1 : String
  deriving DecidableEq, Repr

/-- Observable actions of a pipeline run: executing the candidate code
(`exec(code)`), executing one test (`exec(test_code)` with the candidate code
in scope), invoking the repair module (`self._fix_code(...)`), and the three
generation-stage invocations performed by `generate`. -/
inductive Event where
  | execCode (code : String)
  | execTest (code : String) (test_name : String) (test_code : String)
  | repair (task : String) (old_code : String) (failed_test : String) (error_message : String)
  | invokeSignature (task : String)
  | invokeCodeGen (task : String) (code_signature : String)
  | invokeTestGen (task : String) (code_signature : String)
  deriving DecidableEq, Repr

/-- The execution sandbox (`exec` in the source): running a source string
either succeeds (`none`) or raises with an error message (`some e`).
`execTest code test_code` models `exec(test_code)` performed after
`exec(code)` succeeded in the same frame, so a test outcome may depend on the
current candidate code. -/
structure Sandbox where
  execCode : String → Option String
  execTest : String → String → Option String

/-- The four primed stage modules of `CodeGenerationPipeline`, abstracted as
deterministic input-fields-to-output-fields functions (one LLM completion per
invocation):
`trained_signature : task → code_signature`,
`trained_code_gen : task → code_signature → code`,
`trained_unit_test : task → code_signature → (test_1, test_2, edge_case_test_1)`,
`trained_code_fixer : task → old_code → failed_test → error_message → fixed_code`. -/
structure Modules where
  trained_signature : String → String
  trained_code_gen : String → String → String
  trained_unit_test : String → String → TestResult
  trained_code_fixer : String → String → String → String → String

/-- `CodeGenerationPipeline._fix_code`: invoke the code fixer and return its
`fixed_code` field. -/
def fix_code (m : Modules) (task old_code failed_test error_message : String) : String :=
  m.trained_code_fixer task old_code failed_test error_message

/-- The fixed test sequence of `_run_code_and_tests`:
`[("test_1", test_result.test_1), ("test_2", test_result.test_2),
("edge_case_test_1", test_result.edge_case_test_1)]`. -/
def testsList (t : TestResult) : List (String × String) :=
  [("test_1", t.test_1), ("test_2", t.test_2), ("edge_case_test_1", t.edge_case_test_1)]

/-- The `for test_name, test_code in [...]` loop body of
`_run_code_and_tests`: run each test in order against the current candidate
code; on the first test that raises, stop and report that test's
`(test_name, test_code, error)`; also return the trace of test executions
actually performed. -/
def runTests (sb : Sandbox) (code : String) :
    List (String × String) → List Event × Option (String × String × String)
  | [] => ([], none)
  | (test_name, test_code) :: rest =>
    match sb.execTest code test_code with
    | some e => ([Event.execTest code test_name test_code], some (test_name, test_code, e))
    | none =>
      (Event.execTest code test_name test_code :: (runTests sb code rest).1,
       (runTests sb code rest).2)

/-- Outcome of a fuel-bounded run: `allPassed` models the source reaching
`print("All generated tests passed")` and returning; `outOfFuel` is the model
artifact for a run still looping when the fuel runs out (the source has no
such outcome: it recurses unboundedly). -/
inductive RunResult where
  | allPassed
  | outOfFuel
  deriving DecidableEq, Repr

/-- `CodeGenerationPipeline._run_code_and_tests`, made total by fuel:
execute the candidate code; on failure repair with failed-artifact `"main code"`
and recurse on the fixed code; otherwise run the three tests in order; on the
first failing test repair with that test's source text and recurse on the
fixed code; if all pass, report success.  Returns the event trace and the
outcome. -/
def run_code_and_tests (m : Modules) (sb : Sandbox) :
    Nat → String → String → TestResult → List Event × RunResult
  | 0, _, _, _ => ([], RunResult.outOfFuel)
  | n + 1, task, code, tests =>
    match sb.execCode code with
    | some e =>
      (Event.execCode code ::
        Event.repair task code "main code" e ::
          (run_code_and_tests m sb n task (fix_code m task code "main code" e) tests).1,
       (run_code_and_tests m sb n task (fix_code m task code "main code" e) tests).2)
    | none =>
      match runTests sb code (testsList tests) with
      | (ttr, some (_, test_code, e)) =>
        (Event.execCode code ::
          (ttr ++ (Event.repair task code test_code e ::
            (run_code_and_tests m sb n task (fix_code m task code test_code e) tests).1)),
         (run_code_and_tests m sb n task (fix_code m task code test_code e) tests).2)
      | (ttr, none) => (Event.execCode code :: ttr, RunResult.allPassed)

/-- The task string passed to `trained_signature` in `generate`. -/
def signature_task (task : String) : String :=
  "Write the signature for a Python function doing the following (if the function uses classes, also include the class definition and their methods): " ++ task

/-- The task string passed to `trained_code_gen` in `generate`. -/
def code_task (task : String) : String :=
  "Write " ++ task ++ " with the provided code signature"

/-- The task string passed to `trained_unit_test` in `generate`. -/
def unit_test_task (task : String) : String :=
  "Generate unit tests for the following task with the provided code signature: " ++ task

/-- Everything a call to `CodeGenerationPipeline.generate` produces: the
generated signature, the initial candidate code, the three frozen tests, and
the event trace and outcome of the validation/repair loop. -/
structure GenOutput where
  code_signature : String
  code : String
  tests : TestResult
  trace : List Event
  result : RunResult
  deriving DecidableEq, Repr

/-- `CodeGenerationPipeline.generate`: invoke signature synthesis, then code
synthesis (task + signature), then test synthesis (task + signature), then run
`_run_code_and_tests` on the raw task, the generated code and the generated
tests. -/
def generate (m : Modules) (sb : Sandbox) (fuel : Nat) (task : String) : GenOutput :=
  let sig := m.trained_signature (signature_task task)
  let code := m.trained_code_gen (code_task task) sig
  let tests := m.trained_unit_test (unit_test_task task) sig
  { code_signature := sig
  , code := code
  , tests := tests
  , trace := Event.invokeSignature (signature_task task) ::
      Event.invokeCodeGen (code_task task) sig ::
        Event.invokeTestGen (unit_test_task task) sig ::
          (run_code_and_tests m sb fuel task code tests).1
  , result := (run_code_and_tests m sb fuel task code tests).2 }

/-- `generate` with the two independent synthesis calls exchanged: test
synthesis invoked before code synthesis, both still receiving the task and
the signature. -/
def generate_swapped (m : Modules) (sb : Sandbox) (fuel : Nat) (task : String) : GenOutput :=
  let sig := m.trained_signature (signature_task task)
  let tests := m.trained_unit_test (unit_test_task task) sig
  let code := m.trained_code_gen (code_task task) sig
  { code_signature := sig
  , code := code
  , tests := tests
  , trace := Event.invokeSignature (signature_task task) ::
      Event.invokeTestGen (unit_test_task task) sig ::
        Event.invokeCodeGen (code_task task) sig ::
          (run_code_and_tests m sb fuel task code tests).1
  , result := (run_code_and_tests m sb fuel task code tests).2 }

/-- One record of the Example Bank: the fixed keys
`task, code_signature, code, test_1, test_2, edge_case_test_1`. -/
structure ExampleRecord where
  task : String
  code_signature : String
  code : String
  test_1 : String
  test_2 : String
  edge_case_test_1 : String
  deriving DecidableEq, Repr

/-- `dspy.Example(**x).with_inputs(*input_fields)`: an example record marked
with its declared input field names. -/
structure DSPyExample where
  record : ExampleRecord
  inputKeys : List String
  deriving DecidableEq, Repr

/-- Construction-time state of one stage module: `compiled ts` models
`BootstrapFewShot().compile(module_class(), trainset=ts)` (a primed module);
`fresh` models a bare constructor call such as `CodeFixer()` (unprimed). -/
inductive StageModule where
  | compiled (trainset : List DSPyExample)
  | fresh
  deriving DecidableEq, Repr

/-- Whether a stage module has been primed against a trainset. -/
def StageModule.isPrimed : StageModule → Bool
  | StageModule.compiled _ => true
  | StageModule.fresh => false

/-- `CodeGenerationPipeline._compile_module`: build the trainset by marking
every example-bank record with the declared input fields, then compile. -/
def compile_module (examples : List ExampleRecord) (input_fields : List String) : StageModule :=
  StageModule.compiled (examples.map fun x => { record := x, inputKeys := input_fields })

/-- Construction-time state of `CodeGenerationPipeline` after `__init__`. -/
structure Pipeline where
  examples : List ExampleRecord
  trained_signature : StageModule
  trained_code_gen : StageModule
  trained_unit_test : StageModule
  trained_code_fixer : StageModule
  deriving DecidableEq, Repr

/-- `CodeGenerationPipeline.__init__`: compile the signature, code and
unit-test modules against the example bank with their declared input fields;
the code fixer is instantiated bare (`CodeFixer()`), not compiled. -/
def mkPipeline (examples : List ExampleRecord) : Pipeline :=
  { examples := examples
  , trained_signature := compile_module examples ["task"]
  , trained_code_gen := compile_module examples ["task", "code_signature"]
  , trained_unit_test := compile_module examples ["task", "code_signature"]
  , trained_code_fixer := StageModule.fresh }

/-- Module-level startup line
`os.environ["OPENAI_API_KEY"] = os.getenv("OPENAI_API_KEY")`, applied to the
environment as it stands after `load_dotenv()`.  When the variable is absent,
`os.getenv` returns `None` and assigning `None` into `os.environ` raises
`TypeError: str expected, not NoneType`; otherwise the assignment succeeds. -/
def set_api_key (env : List (String × String)) : Except String (List (String × String)) :=
  match env.lookup "OPENAI_API_KEY" with
  | none => Except.error "str expected, not NoneType"
  | some v => Except.ok (("OPENAI_API_KEY", v) :: env)

/-- The built-in default task of the `__main__` block. -/
def default_task : String := "A Python function to get the nth Fibonacci number"

/-- The `__main__` argument handling:
`if len(sys.argv) > 2 and sys.argv[1] == "--task": task = sys.argv[2] else: task = default_task`.
`argv` is the full `sys.argv` including the program name at index 0. -/
def selectTask (argv : List String) (dflt : String) : String :=
  if 2 < argv.length ∧ argv.getD 1 "" = "--task" then argv.getD 2 dflt else dflt

/-- The whole program: module-level startup (credential check), then pipeline
construction, then task selection, then `generate`.  An error during startup
aborts before the pipeline is constructed and before any module is invoked. -/
def main_program (env : List (String × String)) (examples : List ExampleRecord)
    (m : Modules) (sb : Sandbox) (fuel : Nat) (argv : List String) :
    Except String (Pipeline × GenOutput) :=
  match set_api_key env with
  | Except.error e => Except.error e
  | Except.ok _ =>
    Except.ok (mkPipeline examples, generate m sb fuel (selectTask argv default_task))

/-- Event of executing one test of the list against the candidate code. -/
def testEvent (code : String) (p : String × String) : Event :=
  Event.execTest code p.1 p.2

/-- Whether an event is an invocation of signature synthesis. -/
def isInvokeSignature : Event → Bool
  | Event.invokeSignature _ => true
  | _ => false

/-- Whether an event is an invocation of code synthesis. -/
def isInvokeCodeGen : Event → Bool
  | Event.invokeCodeGen _ _ => true
  | _ => false

/-- Whether an event is an invocation of test synthesis. -/
def isInvokeTestGen : Event → Bool
  | Event.invokeTestGen _ _ => true
  | _ => false

/-- Whether an event is a repair-module invocation. -/
def isRepairEvent : Event → Bool
  | Event.repair _ _ _ _ => true
  | _ => false

/-- Concrete three tests used to evaluate the theorems on closed inputs. -/
def tests0 : TestResult :=
  { test_1 := "t1src", test_2 := "t2src", edge_case_test_1 := "t3src" }

/-- Concrete stage modules used to evaluate the theorems on closed inputs. -/
def m0 : Modules :=
  { trained_signature := fun _ => "sig0"
  , trained_code_gen := fun _ _ => "code0"
  , trained_unit_test := fun _ _ => tests0
  , trained_code_fixer := fun _ _ _ _ => "fixed0" }

/-- Sandbox on which every execution succeeds. -/
def sbAllPass : Sandbox :=
  { execCode := fun _ => none, execTest := fun _ _ => none }

/-- Sandbox on which `"t2src"` raises against candidate `"code0"` and every
other execution succeeds. -/
def sbT2Fails : Sandbox :=
  { execCode := fun _ => none
  , execTest := fun code test_code =>
      if code = "code0" ∧ test_code = "t2src" then some "boom2" else none }

/-- Sandbox on which executing any candidate code raises. -/
def sbCodeFails : Sandbox :=
  { execCode := fun _ => some "boom", execTest := fun _ _ => none }

/-! ### Unfolding lemmas for the validation loop -/

lemma runTests_nil (sb : Sandbox) (code : String) :
    runTests sb code [] = ([], none) := rfl

lemma runTests_cons_fail (sb : Sandbox) (code test_name test_code e : String)
    (rest : List (String × String)) (h : sb.execTest code test_code = some e) :
    runTests sb code ((test_name, test_code) :: rest) =
      ([Event.execTest code test_name test_code], some (test_name, test_code, e)) := by
  simp [runTests, h]

lemma runTests_cons_pass (sb : Sandbox) (code test_name test_code : String)
    (rest : List (String × String)) (h : sb.execTest code test_code = none) :
    runTests sb code ((test_name, test_code) :: rest) =
      (Event.execTest code test_name test_code :: (runTests sb code rest).1,
       (runTests sb code rest).2) := by
  simp [runTests, h]

/-- When every test of the list passes, `runTests` runs them all in order and
reports no failure. -/
lemma runTests_all_pass (sb : Sandbox) (code : String) (l : List (String × String))
    (h : ∀ p ∈ l, sb.execTest code p.2 = none) :
    runTests sb code l = (l.map (testEvent code), none) := by
  induction l with
  | nil => rfl
  | cons p rest ih =>
    obtain ⟨test_name, test_code⟩ := p
    rw [runTests_cons_pass sb code test_name test_code rest (h _ (List.mem_cons_self _ _)),
      ih (fun q hq => h q (List.mem_cons_of_mem _ hq))]
    rfl

/-- When the tests before `(test_name, test_code)` all pass and that test
raises `e`, `runTests` executes exactly the passing ones and the failing one,
in order, and reports that failure: the tests after it are not executed. -/
lemma runTests_first_fail (sb : Sandbox) (code : String)
    (l1 l2 : List (String × String)) (test_name test_code e : String)
    (h1 : ∀ p ∈ l1, sb.execTest code p.2 = none)
    (h2 : sb.execTest code test_code = some e) :
    runTests sb code (l1 ++ (test_name, test_code) :: l2) =
      (l1.map (testEvent code) ++ [Event.execTest code test_name test_code],
       some (test_name, test_code, e)) := by
  induction l1 with
  | nil =>
    simpa using runTests_cons_fail sb code test_name test_code e l2 h2
  | cons p rest ih =>
    obtain ⟨n1, c1⟩ := p
    rw [List.cons_append,
      runTests_cons_pass sb code n1 c1 _ (h1 _ (List.mem_cons_self _ _)),
      ih (fun q hq => h1 q (List.mem_cons_of_mem _ hq))]
    rfl

/-- If `runTests` reports no failure, every test of the list passed and was
executed, in order. -/
lemma runTests_none_inv (sb : Sandbox) (code : String) (l : List (String × String))
    (tr : List Event) (h : runTests sb code l = (tr, none)) :
    (∀ p ∈ l, sb.execTest code p.2 = none) ∧ tr = l.map (testEvent code) := by
  induction l generalizing tr with
  | nil =>
    refine ⟨by simp, ?_⟩
    simpa [runTests] using congrArg Prod.fst h.symm
  | cons p rest ih =>
    obtain ⟨test_name, test_code⟩ := p
    by_cases hp : sb.execTest code test_code = none
    · rw [runTests_cons_pass sb code test_name test_code rest hp] at h
      have h2 : (runTests sb code rest).2 = none := congrArg Prod.snd h
      obtain ⟨hall, htr⟩ := ih (runTests sb code rest).1 (Prod.ext rfl h2)
      refine ⟨?_, ?_⟩
      · intro q hq
        rcases List.mem_cons.mp hq with hq | hq
        · rw [hq]; exact hp
        · exact hall q hq
      · have h1 : tr = Event.execTest code test_name test_code :: (runTests sb code rest).1 :=
          (congrArg Prod.fst h).symm
        rw [h1, htr]; rfl
    · obtain ⟨e, he⟩ := Option.ne_none_iff_exists'.mp hp
      rw [runTests_cons_fail sb code test_name test_code e rest he] at h
      exact absurd (congrArg Prod.snd h) (by simp)

lemma run_zero (m : Modules) (sb : Sandbox) (task code : String) (tests : TestResult) :
    run_code_and_tests m sb 0 task code tests = ([], RunResult.outOfFuel) := rfl

/-- Unfolding: candidate code raises on execution. -/
lemma run_succ_code_fail (m : Modules) (sb : Sandbox) (n : Nat)
    (task code e : String) (tests : TestResult) (h : sb.execCode code = some e) :
    run_code_and_tests m sb (n + 1) task code tests =
      (Event.execCode code ::
        Event.repair task code "main code" e ::
          (run_code_and_tests m sb n task (fix_code m task code "main code" e) tests).1,
       (run_code_and_tests m sb n task (fix_code m task code "main code" e) tests).2) := by
  simp [run_code_and_tests, h]

/-- Unfolding: candidate code executes cleanly and some test fails first. -/
lemma run_succ_test_fail (m : Modules) (sb : Sandbox) (n : Nat)
    (task code : String) (tests : TestResult) (ttr : List Event)
    (test_name test_code e : String)
    (hc : sb.execCode code = none)
    (ht : runTests sb code (testsList tests) = (ttr, some (test_name, test_code, e))) :
    run_code_and_tests m sb (n + 1) task code tests =
      (Event.execCode code ::
        (ttr ++ (Event.repair task code test_code e ::
          (run_code_and_tests m sb n task (fix_code m task code test_code e) tests).1)),
       (run_code_and_tests m sb n task (fix_code m task code test_code e) tests).2) := by
  simp [run_code_and_tests, hc, ht]

/-- Unfolding: candidate code executes cleanly and no test fails. -/
lemma run_succ_all_pass (m : Modules) (sb : Sandbox) (n : Nat)
    (task code : String) (tests : TestResult) (ttr : List Event)
    (hc : sb.execCode code = none)
    (ht : runTests sb code (testsList tests) = (ttr, none)) :
    run_code_and_tests m sb (n + 1) task code tests =
      (Event.execCode code :: ttr, RunResult.allPassed) := by
  simp [run_code_and_tests, hc, ht]

/-- Every event in a `runTests` trace is the execution of one test of the
list against the given candidate code. -/
lemma runTests_trace_mem (sb : Sandbox) (code : String) (l : List (String × String)) :
    ∀ ev ∈ (runTests sb code l).1, ∃ p ∈ l, ev = Event.execTest code p.1 p.2 := by
  induction l with
  | nil => intro ev hev; simp [runTests] at hev
  | cons p rest ih =>
    obtain ⟨test_name, test_code⟩ := p
    intro ev hev
    cases hp : sb.execTest code test_code with
    | some e =>
      rw [runTests_cons_fail sb code test_name test_code e rest hp] at hev
      simp at hev
      exact ⟨(test_name, test_code), List.mem_cons_self _ _, hev⟩
    | none =>
      rw [runTests_cons_pass sb code test_name test_code rest hp] at hev
      rcases List.mem_cons.mp hev with hev | hev
      · exact ⟨(test_name, test_code), List.mem_cons_self _ _, hev⟩
      · obtain ⟨q, hq, hq2⟩ := ih ev hev
        exact ⟨q, List.mem_cons_of_mem _ hq, hq2⟩

/-- No event in a `_run_code_and_tests` trace is a generation-stage
invocation: the repair loop never re-invokes signature, code or test
synthesis. -/
lemma run_trace_no_invoke (m : Modules) (sb : Sandbox) :
    ∀ (n : Nat) (task code : String) (tests : TestResult),
    ∀ ev ∈ (run_code_and_tests m sb n task code tests).1,
      isInvokeSignature ev = false ∧ isInvokeCodeGen ev = false ∧
        isInvokeTestGen ev = false := by
  intro n
  induction n with
  | zero => intro task code tests ev hev; simp [run_zero] at hev
  | succ n ih =>
    intro task code tests ev hev
    cases hc : sb.execCode code with
    | some e =>
      rw [run_succ_code_fail m sb n task code e tests hc] at hev
      simp only [List.mem_cons] at hev
      rcases hev with hev | hev | hev
      · subst hev; exact ⟨rfl, rfl, rfl⟩
      · subst hev; exact ⟨rfl, rfl, rfl⟩
      · exact ih task _ tests ev hev
    | none =>
      rcases ht : runTests sb code (testsList tests) with ⟨ttr, res⟩
      cases res with
      | some f =>
        obtain ⟨test_name, test_code, e⟩ := f
        rw [run_succ_test_fail m sb n task code tests ttr test_name test_code e hc ht] at hev
        simp only [List.mem_cons, List.mem_append] at hev
        rcases hev with hev | hev | hev | hev
        · subst hev; exact ⟨rfl, rfl, rfl⟩
        · obtain ⟨q, _, hq⟩ := runTests_trace_mem sb code (testsList tests) ev (ht ▸ hev)
          subst hq; exact ⟨rfl, rfl, rfl⟩
        · subst hev; exact ⟨rfl, rfl, rfl⟩
        · exact ih task _ tests ev hev
      | none =>
        rw [run_succ_all_pass m sb n task code tests ttr hc ht] at hev
        rcases List.mem_cons.mp hev with hev | hev
        · subst hev; exact ⟨rfl, rfl, rfl⟩
        · obtain ⟨q, _, hq⟩ := runTests_trace_mem sb code (testsList tests) ev (ht ▸ hev)
          subst hq; exact ⟨rfl, rfl, rfl⟩

/-- Every test execution in a `_run_code_and_tests` trace uses one of the
three frozen test sources: repair iterations replace only the candidate code,
never the tests. -/
lemma run_trace_tests_frozen (m : Modules) (sb : Sandbox) :
    ∀ (n : Nat) (task code : String) (tests : TestResult),
    ∀ c test_name test_code,
      Event.execTest c test_name test_code ∈ (run_code_and_tests m sb n task code tests).1 →
      (test_name, test_code) ∈ testsList tests := by
  intro n
  induction n with
  | zero => intro task code tests c tn tc hev; simp [run_zero] at hev
  | succ n ih =>
    intro task code tests c tn tc hev
    cases hc : sb.execCode code with
    | some e =>
      rw [run_succ_code_fail m sb n task code e tests hc] at hev
      simp only [List.mem_cons] at hev
      rcases hev with hev | hev | hev
      · exact absurd hev (by simp)
      · exact absurd hev (by simp)
      · exact ih task _ tests c tn tc hev
    | none =>
      rcases ht : runTests sb code (testsList tests) with ⟨ttr, res⟩
      cases res with
      | some f =>
        obtain ⟨test_name, test_code, e⟩ := f
        rw [run_succ_test_fail m sb n task code tests ttr test_name test_code e hc ht] at hev
        simp only [List.mem_cons, List.mem_append] at hev
        rcases hev with hev | hev | hev | hev
        · exact absurd hev (by simp)
        · have hev' : Event.execTest c tn tc ∈ (runTests sb code (testsList tests)).1 := by
            rw [congrArg Prod.fst ht]; exact hev
          obtain ⟨q, hq, hq2⟩ := runTests_trace_mem sb code (testsList tests) _ hev'
          obtain ⟨qn, qc⟩ := q
          cases hq2
          exact hq
        · exact absurd hev (by simp)
        · exact ih task _ tests c tn tc hev
      | none =>
        rw [run_succ_all_pass m sb n task code tests ttr hc ht] at hev
        rcases List.mem_cons.mp hev with hev | hev
        · exact absurd hev (by simp)
        · have hev' : Event.execTest c tn tc ∈ (runTests sb code (testsList tests)).1 := by
            rw [congrArg Prod.fst ht]; exact hev
          obtain ⟨q, hq, hq2⟩ := runTests_trace_mem sb code (testsList tests) _ hev'
          obtain ⟨qn, qc⟩ := q
          cases hq2
          exact hq

/-- A run can only report `allPassed` when some (final) candidate code
executed cleanly and then each of the three tests passed against it; those
four executions, in order, close the trace. -/
lemma allPassed_final_pass (m : Modules) (sb : Sandbox) :
    ∀ (n : Nat) (task code : String) (tests : TestResult),
    (run_code_and_tests m sb n task code tests).2 = RunResult.allPassed →
    ∃ c pre, sb.execCode c = none ∧
      sb.execTest c tests.test_1 = none ∧
      sb.execTest c tests.test_2 = none ∧
      sb.execTest c tests.edge_case_test_1 = none ∧
      (run_code_and_tests m sb n task code tests).1 =
        pre ++ [Event.execCode c,
          Event.execTest c "test_1" tests.test_1,
          Event.execTest c "test_2" tests.test_2,
          Event.execTest c "edge_case_test_1" tests.edge_case_test_1] := by
  intro n
  induction n with
  | zero => intro task code tests h; simp [run_zero] at h
  | succ n ih =>
    intro task code tests h
    cases hc : sb.execCode code with
    | some e =>
      rw [run_succ_code_fail m sb n task code e tests hc] at h ⊢
      obtain ⟨c, pre, h1, h2, h3, h4, h5⟩ := ih task (fix_code m task code "main code" e) tests h
      exact ⟨c, Event.execCode code :: Event.repair task code "main code" e :: pre,
        h1, h2, h3, h4, by simp [h5]⟩
    | none =>
      rcases ht : runTests sb code (testsList tests) with ⟨ttr, res⟩
      cases res with
      | some f =>
        obtain ⟨test_name, test_code, e⟩ := f
        rw [run_succ_test_fail m sb n task code tests ttr test_name test_code e hc ht] at h ⊢
        obtain ⟨c, pre, h1, h2, h3, h4, h5⟩ := ih task (fix_code m task code test_code e) tests h
        refine ⟨c, Event.execCode code ::
          (ttr ++ (Event.repair task code test_code e :: pre)), h1, h2, h3, h4, ?_⟩
        simp [h5]
      | none =>
        obtain ⟨hall, htr⟩ := runTests_none_inv sb code (testsList tests) ttr ht
        rw [run_succ_all_pass m sb n task code tests ttr hc ht]
        refine ⟨code, [], hc, ?_, ?_, ?_, ?_⟩
        · exact hall ("test_1", tests.test_1) (by simp [testsList])
        · exact hall ("test_2", tests.test_2) (by simp [testsList])
        · exact hall ("edge_case_test_1", tests.edge_case_test_1) (by simp [testsList])
        · rw [htr]; simp [testsList, testEvent]

/-! ### Claim theorems -/

/-- C1: during test execution the three tests are considered in the fixed
order `test_1, test_2, edge_case_test_1` against the current candidate code;
when the tests before some test all pass and that test raises, the
orchestrator executes exactly the preceding tests and the failing one (the
remaining tests are not executed), and invokes the repair module with
`failed_test` equal to that test's source text and `error_message` the
captured error, before continuing on the fixed code. -/
theorem first_failing_test_short_circuits_to_repair
    (m : Modules) (sb : Sandbox) (n : Nat) (task code : String) (tests : TestResult)
    (l1 l2 : List (String × String)) (test_name test_code e : String)
    (hsplit : testsList tests = l1 ++ (test_name, test_code) :: l2)
    (hpass : ∀ p ∈ l1, sb.execTest code p.2 = none)
    (hfail : sb.execTest code test_code = some e)
    (hcode : sb.execCode code = none) :
    testsList tests = [("test_1", tests.test_1), ("test_2", tests.test_2),
      ("edge_case_test_1", tests.edge_case_test_1)] ∧
    run_code_and_tests m sb (n + 1) task code tests =
      (Event.execCode code ::
        ((l1.map (testEvent code) ++ [Event.execTest code test_name test_code]) ++
          (Event.repair task code test_code e ::
            (run_code_and_tests m sb n task (fix_code m task code test_code e) tests).1)),
       (run_code_and_tests m sb n task (fix_code m task code test_code e) tests).2) := by
  refine ⟨rfl, ?_⟩
  have ht := runTests_first_fail sb code l1 l2 test_name test_code e hpass hfail
  rw [← hsplit] at ht
  simpa using run_succ_test_fail m sb n task code tests _ test_name test_code e hcode ht

/-- Witness for C1: on a sandbox where `test_2` raises against the candidate,
`test_1` and `test_2` are executed, `edge_case_test_1` is not, and the repair
module receives the source of `test_2` and its error. -/
theorem first_failing_test_short_circuits_to_repair_witness :
    run_code_and_tests m0 sbT2Fails 1 "task0" "code0" tests0 =
      ([Event.execCode "code0",
        Event.execTest "code0" "test_1" "t1src",
        Event.execTest "code0" "test_2" "t2src",
        Event.repair "task0" "code0" "t2src" "boom2"],
       RunResult.outOfFuel) := by
  have h := (first_failing_test_short_circuits_to_repair m0 sbT2Fails 0 "task0" "code0" tests0
    [("test_1", "t1src")] [("edge_case_test_1", "t3src")] "test_2" "t2src" "boom2"
    (by rfl) (by decide) (by decide) (by rfl)).2
  simpa using h

/-- C3: when execution of the current candidate code itself raises, the
repair module is invoked with `failed_test` equal to the sentinel
`"main code"` and the captured error, and no test is executed on that
iteration: the trace of the iteration is exactly the code execution followed
by the repair, followed by the run on the fixed code. -/
theorem code_failure_repairs_before_any_test
    (m : Modules) (sb : Sandbox) (n : Nat) (task code e : String) (tests : TestResult)
    (h : sb.execCode code = some e) :
    run_code_and_tests m sb (n + 1) task code tests =
      (Event.execCode code ::
        Event.repair task code "main code" e ::
          (run_code_and_tests m sb n task (fix_code m task code "main code" e) tests).1,
       (run_code_and_tests m sb n task (fix_code m task code "main code" e) tests).2) :=
  run_succ_code_fail m sb n task code e tests h

/-- Witness for C3: on a sandbox where executing any candidate raises
`"boom"`, the run immediately repairs with `"main code"` and no test event
occurs. -/
theorem code_failure_repairs_before_any_test_witness :
    run_code_and_tests m0 sbCodeFails 1 "task0" "code0" tests0 =
      ([Event.execCode "code0", Event.repair "task0" "code0" "main code" "boom"],
       RunResult.outOfFuel) := by
  have h := code_failure_repairs_before_any_test m0 sbCodeFails 0 "task0" "code0" "boom"
    tests0 (by rfl)
  simpa using h

/-- C4: when the initially generated candidate code executes cleanly and all
three generated tests pass, `generate` reports overall success, its trace is
exactly the three stage invocations, the code execution and the three test
executions in order, and the repair module is never invoked. -/
theorem clean_first_run_passes_without_repair
    (m : Modules) (sb : Sandbox) (n : Nat) (task sig code : String) (tests : TestResult)
    (hsig : sig = m.trained_signature (signature_task task))
    (hcode : code = m.trained_code_gen (code_task task) sig)
    (htests : tests = m.trained_unit_test (unit_test_task task) sig)
    (hexec : sb.execCode code = none)
    (h1 : sb.execTest code tests.test_1 = none)
    (h2 : sb.execTest code tests.test_2 = none)
    (h3 : sb.execTest code tests.edge_case_test_1 = none) :
    (generate m sb (n + 1) task).result = RunResult.allPassed ∧
    (generate m sb (n + 1) task).trace =
      [Event.invokeSignature (signature_task task),
       Event.invokeCodeGen (code_task task) sig,
       Event.invokeTestGen (unit_test_task task) sig,
       Event.execCode code,
       Event.execTest code "test_1" tests.test_1,
       Event.execTest code "test_2" tests.test_2,
       Event.execTest code "edge_case_test_1" tests.edge_case_test_1] ∧
    (∀ t oc ft em, Event.repair t oc ft em ∉ (generate m sb (n + 1) task).trace) := by
  have hall : ∀ p ∈ testsList tests, sb.execTest code p.2 = none := by
    intro p hp
    simp only [testsList, List.mem_cons, List.mem_singleton] at hp
    rcases hp with rfl | rfl | rfl | hp
    · exact h1
    · exact h2
    · exact h3
    · simp at hp
  have ht := runTests_all_pass sb code (testsList tests) hall
  have hrun := run_succ_all_pass m sb n task code tests _ hexec ht
  subst hsig; subst hcode; subst htests
  refine ⟨?_, ?_, ?_⟩
  · simp [generate, hrun]
  · simp [generate, hrun, testsList, testEvent]
  · intro t oc ft em hmem
    simp only [generate] at hmem
    rw [hrun] at hmem
    simp [testsList, testEvent] at hmem

/-- Witness for C4: a concrete clean first run passes with no repair event. -/
theorem clean_first_run_passes_without_repair_witness :
    (generate m0 sbAllPass 1 "task0").result = RunResult.allPassed ∧
    (generate m0 sbAllPass 1 "task0").trace =
      [Event.invokeSignature (signature_task "task0"),
       Event.invokeCodeGen (code_task "task0") "sig0",
       Event.invokeTestGen (unit_test_task "task0") "sig0",
       Event.execCode "code0",
       Event.execTest "code0" "test_1" "t1src",
       Event.execTest "code0" "test_2" "t2src",
       Event.execTest "code0" "edge_case_test_1" "t3src"] ∧
    (∀ t oc ft em, Event.repair t oc ft em ∉ (generate m0 sbAllPass 1 "task0").trace) :=
  clean_first_run_passes_without_repair m0 sbAllPass 0 "task0" "sig0" "code0" tests0
    (by rfl) (by rfl) (by rfl) (by rfl) (by rfl) (by rfl) (by rfl)

/-- C2: after every repair invocation the candidate code is fully replaced by
the repair module's `fixed_code` output — the continuation of the run is
exactly the run on `fix_code` applied to the failing context, with the same
frozen tests — and validation restarts from code execution: a run can only
report overall success when some candidate executed cleanly and then each of
the three tests, from `test_1` onward, passed against it, those executions
closing the trace. -/
theorem repair_replaces_candidate_and_revalidates
    (m : Modules) (sb : Sandbox) (n : Nat) (task code : String) (tests : TestResult) :
    (∀ e, sb.execCode code = some e →
      run_code_and_tests m sb (n + 1) task code tests =
        (Event.execCode code ::
          Event.repair task code "main code" e ::
            (run_code_and_tests m sb n task (fix_code m task code "main code" e) tests).1,
         (run_code_and_tests m sb n task (fix_code m task code "main code" e) tests).2)) ∧
    (∀ ttr test_name test_code e,
      sb.execCode code = none →
      runTests sb code (testsList tests) = (ttr, some (test_name, test_code, e)) →
      run_code_and_tests m sb (n + 1) task code tests =
        (Event.execCode code ::
          (ttr ++ (Event.repair task code test_code e ::
            (run_code_and_tests m sb n task (fix_code m task code test_code e) tests).1)),
         (run_code_and_tests m sb n task (fix_code m task code test_code e) tests).2)) ∧
    ((run_code_and_tests m sb n task code tests).2 = RunResult.allPassed →
      ∃ c pre, sb.execCode c = none ∧
        sb.execTest c tests.test_1 = none ∧
        sb.execTest c tests.test_2 = none ∧
        sb.execTest c tests.edge_case_test_1 = none ∧
        (run_code_and_tests m sb n task code tests).1 =
          pre ++ [Event.execCode c,
            Event.execTest c "test_1" tests.test_1,
            Event.execTest c "test_2" tests.test_2,
            Event.execTest c "edge_case_test_1" tests.edge_case_test_1]) :=
  ⟨fun e h => run_succ_code_fail m sb n task code e tests h,
   fun ttr test_name test_code e hc ht =>
     run_succ_test_fail m sb n task code tests ttr test_name test_code e hc ht,
   fun h => allPassed_final_pass m sb n task code tests h⟩

/-- Witness for C2: a run that repairs once after `test_2` fails reaches
success only after the fixed candidate re-passes execution and all three
tests, which close the trace. -/
theorem repair_replaces_candidate_and_revalidates_witness :
    ∃ c pre, sbT2Fails.execCode c = none ∧
      sbT2Fails.execTest c "t1src" = none ∧
      sbT2Fails.execTest c "t2src" = none ∧
      sbT2Fails.execTest c "t3src" = none ∧
      (run_code_and_tests m0 sbT2Fails 2 "task0" "code0" tests0).1 =
        pre ++ [Event.execCode c,
          Event.execTest c "test_1" "t1src",
          Event.execTest c "test_2" "t2src",
          Event.execTest c "edge_case_test_1" "t3src"] :=
  (repair_replaces_candidate_and_revalidates m0 sbT2Fails 2 "task0" "code0" tests0).2.2
    (by decide)

/-- C5: a `generate` run invokes signature synthesis exactly once, code
synthesis exactly once and test synthesis exactly once — the repair
iterations never regenerate them — and every test ever executed during the
run is one of the three frozen test sources produced by the single test
synthesis invocation. -/
theorem signature_and_tests_generated_once
    (m : Modules) (sb : Sandbox) (fuel : Nat) (task : String) :
    (generate m sb fuel task).trace.countP isInvokeSignature = 1 ∧
    (generate m sb fuel task).trace.countP isInvokeCodeGen = 1 ∧
    (generate m sb fuel task).trace.countP isInvokeTestGen = 1 ∧
    (∀ c test_name test_code,
      Event.execTest c test_name test_code ∈ (generate m sb fuel task).trace →
      (test_name, test_code) ∈ testsList (generate m sb fuel task).tests) := by
  have hno := run_trace_no_invoke m sb fuel task
    (m.trained_code_gen (code_task task) (m.trained_signature (signature_task task)))
    (m.trained_unit_test (unit_test_task task) (m.trained_signature (signature_task task)))
  have hz1 : (run_code_and_tests m sb fuel task
      (m.trained_code_gen (code_task task) (m.trained_signature (signature_task task)))
      (m.trained_unit_test (unit_test_task task)
        (m.trained_signature (signature_task task)))).1.countP isInvokeSignature = 0 :=
    List.countP_eq_zero.mpr (fun ev hev => by simp [(hno ev hev).1])
  have hz2 : (run_code_and_tests m sb fuel task
      (m.trained_code_gen (code_task task) (m.trained_signature (signature_task task)))
      (m.trained_unit_test (unit_test_task task)
        (m.trained_signature (signature_task task)))).1.countP isInvokeCodeGen = 0 :=
    List.countP_eq_zero.mpr (fun ev hev => by simp [(hno ev hev).2.1])
  have hz3 : (run_code_and_tests m sb fuel task
      (m.trained_code_gen (code_task task) (m.trained_signature (signature_task task)))
      (m.trained_unit_test (unit_test_task task)
        (m.trained_signature (signature_task task)))).1.countP isInvokeTestGen = 0 :=
    List.countP_eq_zero.mpr (fun ev hev => by simp [(hno ev hev).2.2])
  refine ⟨?_, ?_, ?_, ?_⟩
  · simp [generate, List.countP_cons, hz1, isInvokeSignature, isInvokeCodeGen, isInvokeTestGen]
  · simp [generate, List.countP_cons, hz2, isInvokeSignature, isInvokeCodeGen, isInvokeTestGen]
  · simp [generate, List.countP_cons, hz3, isInvokeSignature, isInvokeCodeGen, isInvokeTestGen]
  · intro c test_name test_code hmem
    simp only [generate, List.mem_cons] at hmem
    rcases hmem with h | h | h | h
    · exact absurd h (by simp)
    · exact absurd h (by simp)
    · exact absurd h (by simp)
    · exact run_trace_tests_frozen m sb fuel task _ _ c test_name test_code h

/-- Witness for C5: in a concrete run, the executed test `test_1` is one of
the three frozen test sources. -/
theorem signature_and_tests_generated_once_witness :
    ("test_1", "t1src") ∈ testsList (generate m0 sbAllPass 1 "task0").tests :=
  (signature_and_tests_generated_once m0 sbAllPass 1 "task0").2.2.2
    "code0" "test_1" "t1src" (by decide)

/-- C6 counterexample: the claim that every one of the four stage modules is
primed against the Example Bank at construction is false — on a concrete
example bank, the code-fixer module of the constructed pipeline is not
primed (`CodeFixer()` is instantiated bare, never compiled against the
bank). -/
theorem code_fixer_not_primed :
    (mkPipeline [{ task := "t", code_signature := "s", code := "c", test_1 := "a", test_2 := "b", edge_case_test_1 := "d" }]).trained_code_fixer.isPrimed = false := rfl

/-- C6 amended: at pipeline construction, the signature, code and unit-test
modules are each primed against the Example Bank with every example tuple
marked with that module's declared input fields, while the code-fixer module
is instantiated unprimed. -/
theorem three_modules_primed_fixer_fresh (examples : List ExampleRecord) :
    (mkPipeline examples).trained_signature =
      StageModule.compiled (examples.map fun x => { record := x, inputKeys := ["task"] }) ∧
    (mkPipeline examples).trained_code_gen =
      StageModule.compiled
        (examples.map fun x => { record := x, inputKeys := ["task", "code_signature"] }) ∧
    (mkPipeline examples).trained_unit_test =
      StageModule.compiled
        (examples.map fun x => { record := x, inputKeys := ["task", "code_signature"] }) ∧
    (mkPipeline examples).trained_code_fixer = StageModule.fresh :=
  ⟨rfl, rfl, rfl, rfl⟩

/-- C7: the validate-repair cycle has no iteration cap and no distinguished
exhaustion outcome: on a sandbox where candidate execution always fails, a
run with fuel `n` performs exactly `n` repair invocations — one per unit of
fuel, unboundedly — and never reports success; the loop simply continues as
long as the model allows it to run. -/
theorem no_repair_iteration_cap
    (m : Modules) (sb : Sandbox) (task code : String) (tests : TestResult)
    (h : ∀ c, sb.execCode c ≠ none) :
    ∀ n, (run_code_and_tests m sb n task code tests).1.countP isRepairEvent = n ∧
      (run_code_and_tests m sb n task code tests).2 ≠ RunResult.allPassed := by
  intro n
  induction n generalizing code with
  | zero => exact ⟨rfl, by simp [run_zero]⟩
  | succ n ih =>
    cases hc : sb.execCode code with
    | none => exact absurd hc (h code)
    | some e =>
      rw [run_succ_code_fail m sb n task code e tests hc]
      obtain ⟨ihc, ihr⟩ := ih (fix_code m task code "main code" e)
      constructor
      · simp [List.countP_cons, isRepairEvent, ihc]
      · simpa using ihr

/-- Witness for C7: with always-failing code execution, fuel 3 produces
exactly 3 repair invocations and no success. -/
theorem no_repair_iteration_cap_witness :
    (run_code_and_tests m0 sbCodeFails 3 "task0" "code0" tests0).1.countP isRepairEvent = 3 ∧
    (run_code_and_tests m0 sbCodeFails 3 "task0" "code0" tests0).2 ≠ RunResult.allPassed :=
  no_repair_iteration_cap m0 sbCodeFails "task0" "code0" tests0
    (fun c hc => by simp [sbCodeFails] at hc) 3

/-- C8: code synthesis and test synthesis are invoked independently, each
with the task and the code signature and neither consuming the other's
output, so exchanging the order of the two invocations yields the same
candidate code, the same three tests, the same signature, the same run
outcome and the same validation trace. -/
theorem code_and_test_synthesis_commute
    (m : Modules) (sb : Sandbox) (fuel : Nat) (task : String) :
    (generate_swapped m sb fuel task).code = (generate m sb fuel task).code ∧
    (generate_swapped m sb fuel task).tests = (generate m sb fuel task).tests ∧
    (generate_swapped m sb fuel task).code_signature =
      (generate m sb fuel task).code_signature ∧
    (generate_swapped m sb fuel task).result = (generate m sb fuel task).result ∧
    (generate_swapped m sb fuel task).trace.drop 3 = (generate m sb fuel task).trace.drop 3 :=
  ⟨rfl, rfl, rfl, rfl, rfl⟩

/-- C9: the environment-sourced API credential is mandatory: when
`OPENAI_API_KEY` is absent from the environment, the program fails fatally
during the module-level startup assignment, and no pipeline is ever
constructed nor any module invoked. -/
theorem missing_api_key_fatal_at_startup
    (env : List (String × String)) (examples : List ExampleRecord)
    (m : Modules) (sb : Sandbox) (fuel : Nat) (argv : List String)
    (h : env.lookup "OPENAI_API_KEY" = none) :
    main_program env examples m sb fuel argv = Except.error "str expected, not NoneType" ∧
    ∀ p g, main_program env examples m sb fuel argv ≠ Except.ok (p, g) := by
  have hk : set_api_key env = Except.error "str expected, not NoneType" := by
    simp [set_api_key, h]
  refine ⟨by simp [main_program, hk], ?_⟩
  intro p g hok
  simp [main_program, hk] at hok

/-- Witness for C9: a concrete environment without the credential makes the
program fail at startup. -/
theorem missing_api_key_fatal_at_startup_witness :
    main_program [("HOME", "/root")] [] m0 sbAllPass 0 [] =
      Except.error "str expected, not NoneType" :=
  (missing_api_key_fatal_at_startup [("HOME", "/root")] [] m0 sbAllPass 0 []
    (by decide)).1

/-- C10: the supplied task is used exactly when `sys.argv` has more than two
entries and `sys.argv[1]` is exactly `"--task"`; in every other case —
including `"--task"` as the last argument — the built-in default task is
used, and task selection is a total function, raising no error on malformed
arguments. -/
theorem task_flag_parsing_total (argv : List String) (dflt : String) :
    ((2 < argv.length ∧ argv.getD 1 "" = "--task") → selectTask argv dflt = argv.getD 2 dflt) ∧
    (¬(2 < argv.length ∧ argv.getD 1 "" = "--task") → selectTask argv dflt = dflt) := by
  refine ⟨fun h => ?_, fun h => ?_⟩
  · unfold selectTask
    rw [if_pos h]
  · unfold selectTask
    rw [if_neg h]

/-- Witness for C10: with a value after `--task` the supplied task is used;
with `--task` as the last argument the default is used silently. -/
theorem task_flag_parsing_total_witness :
    selectTask ["prog", "--task", "mytask"] "dflt" = "mytask" ∧
    selectTask ["prog", "--task"] "dflt" = "dflt" :=
  ⟨(task_flag_parsing_total ["prog", "--task", "mytask"] "dflt").1 (by decide),
   (task_flag_parsing_total ["prog", "--task"] "dflt").2 (by decide)⟩
